import Mathlib

/-!
# Verification of the `utils/log.py` logging framework

Shallow embedding of the logging module of this repository and proofs about
its behaviour.  Python dictionaries are modelled as association lists,
Python attribute/key absence as `Option`, raised exceptions as `Except`,
and machine-level side effects (file writes, sockets) as inert `Handler`
descriptions attached to logger states.
-/

/-- A Python `lineno` value carried on a record: either `None` (`none`) or an
integer (`some n`).  Python truthiness of such a value: `None` and `0` are
falsy, every other integer is truthy. -/
abbrev PyLineno := Option Int

/-- Scalar YAML/config values that appear in the logging configuration. -/
inductive ScalarVal where
  | str (s : String)
  | nat (n : Nat)
  | bool (b : Bool)
deriving DecidableEq, Repr

/-- A logging-config value: a scalar, or a nested per-logger override block
(a flat dict of scalars, as in `env.yaml`'s `logging: {cfme: {level: DEBUG}}`). -/
inductive ConfVal where
  | scalar (v : ScalarVal)
  | dict (d : List (String × ScalarVal))
deriving DecidableEq, Repr

/-- Association-list lookup, modelling Python `d[k]` / `d.get(k)`. -/
def pyLookup {α : Type} : List (String × α) → String → Option α
  | [], _ => none
  | (k, v) :: rest, key => if k = key then some v else pyLookup rest key

/-- Modelling Python `d[k] = v`: replace the binding if present, else append. -/
def setKey {α : Type} : List (String × α) → String → α → List (String × α)
  | [], k, v => [(k, v)]
  | (k', v') :: rest, k, v =>
    if k' = k then (k, v) :: rest else (k', v') :: setKey rest k v

/-- Modelling Python `del d[k]`: remove the binding for `k`. -/
def eraseKey {α : Type} : List (String × α) → String → List (String × α)
  | [], _ => []
  | (k, v) :: rest, key =>
    if k = key then eraseKey rest key else (k, v) :: eraseKey rest key

/-- Modelling Python `d.update(e)` for a dict argument `e`: each binding of
`e` is written into `d` in order. -/
def dictUpdate (d e : List (String × ConfVal)) : List (String × ConfVal) :=
  e.foldl (fun acc kv => setKey acc kv.1 kv.2) d

/-- Writing a flat scalar block into a config dict, as done when a per-logger
override block is merged by `logging_conf.update(logging_conf[logger_name])`. -/
def dictUpdateScalars (d : List (String × ConfVal)) (e : List (String × ScalarVal)) :
    List (String × ConfVal) :=
  e.foldl (fun acc kv => setKey acc kv.1 (ConfVal.scalar kv.2)) d

/-- Modelling Python `d.update(x)` for an arbitrary config value `x`.
`update` with a dict merges it; `update` with a non-empty string raises
`ValueError` (each character is a length-1 sequence, not a key/value pair);
`update` with an int or bool raises `TypeError` (not iterable).  The empty
string iterates zero elements and is a no-op. -/
def dictUpdateWith (d : List (String × ConfVal)) :
    ConfVal → Except Unit (List (String × ConfVal))
  | ConfVal.dict kvs => Except.ok (dictUpdateScalars d kvs)
  | ConfVal.scalar (ScalarVal.str s) =>
    if s = "" then Except.ok d else Except.error ()
  | ConfVal.scalar (ScalarVal.nat _) => Except.error ()
  | ConfVal.scalar (ScalarVal.bool _) => Except.error ()

/-- `MARKER_LEN = 80`. -/
def MARKER_LEN : Nat := 80

/-- The module-level `_default_conf` dict of `utils/log.py`. -/
def default_conf : List (String × ConfVal) :=
  [ ("level", ConfVal.scalar (ScalarVal.str "INFO")),
    ("max_file_size", ConfVal.scalar (ScalarVal.nat 0)),
    ("max_file_backups", ConfVal.scalar (ScalarVal.nat 0)),
    ("errors_to_console", ConfVal.scalar (ScalarVal.bool false)),
    ("file_format", ConfVal.scalar
      (ScalarVal.str "%(asctime)-15s [%(levelname).1s] %(message)s (%(source)s)")),
    ("stream_format", ConfVal.scalar
      (ScalarVal.str "[%(levelname)s] %(message)s (%(source)s)")) ]

/-- The built-in option names of `_default_conf` (reserved configuration keys). -/
def reservedConfKeys : List String :=
  ["level", "max_file_size", "max_file_backups", "errors_to_console",
   "file_format", "stream_format"]

/-- Boolean prefix test on the character lists of two strings (kernel-reducible
replacement for byte-position based prefix tests). -/
def startsWithChars : List Char → List Char → Bool
  | [], _ => true
  | _ :: _, [] => false
  | a :: as, b :: bs => if a = b then startsWithChars as bs else false

/-- Modelled from the spec: `utils.path.get_rel_path` is imported by
`utils/log.py` but its source is not part of the excerpt.  Per the spec it
converts a path "to project-relative form when possible, else keep it
absolute".  The project root is passed explicitly. -/
def get_rel_path (projectRoot path : String) : String :=
  if startsWithChars projectRoot.data path.data then path.drop projectRoot.length
  else path

/-- Modelled from the spec: `utils.safe_string` is imported by `utils/log.py`
but its source is not part of the excerpt; it normalizes a log message to a
safe string.  The claims under verification do not depend on the
normalization, so on an already plain string it is the identity. -/
def safe_string (s : String) : String := s

/-- A string of `n` copies of the character `c` (the fill padding produced by
Python's `'{:c^N}'` centering). -/
def charRepeat (c : Char) (n : Nat) : String :=
  String.mk (List.replicate n c)

/-- Python `'{:f^w}'.format(s)` centering with fill character `f` and width
`w`: a string not shorter than `w` is returned unchanged; otherwise the
padding is split with the extra fill character going to the right. -/
def pyCenter (s : String) (fill : Char) (width : Nat) : String :=
  if width ≤ s.length then s
  else
    let total := width - s.length
    let left := total / 2
    let right := total - left
    charRepeat fill left ++ s ++ charRepeat fill right

/-- `format_marker` from `utils/log.py`: a message of length at most
`MARKER_LEN - 2` is padded with one space on each side and centered in a
width-`MARKER_LEN` field filled with the mark character; a longer message is
returned as is.  (The Python code interpolates `mark` into a format spec as
the single fill character, hence `mark : Char` here.) -/
def format_marker (mstring : String) (mark : Char := '-') : String :=
  if mstring.length ≤ MARKER_LEN - 2 then
    pyCenter (" " ++ mstring ++ " ") mark MARKER_LEN
  else
    mstring

/-- A log record as seen by `_RelpathFilter.filter`.  `source_file` /
`source_lineno` model the optional caller-supplied attributes (`none` means
the attribute is absent and reading it raises `AttributeError`);
`pathname` / `lineno` are the built-in attributes automatically captured at
the logging call site, which are always present. -/
structure LogRecord where
  source_file : Option String := none
  source_lineno : Option PyLineno := none
  pathname : String
  lineno : Int
deriving DecidableEq, Repr

/-- `_RelpathFilter.filter` from `utils/log.py`.  The `try` block reads
`record.source_file` and then `record.source_lineno`; an `AttributeError`
from either read sends control to the `except` block, which recomputes
`relpath` from `record.pathname` and takes `record.lineno`.  Finally
`record.source` is `"relpath:lineno"` when `lineno` is truthy and `relpath`
alone otherwise, and the filter returns `True`.  The relativization function
`rel` stands for `get_rel_path`.  Result: `(record.source, return value)`. -/
def RelpathFilter.filter (rel : String → String) (record : LogRecord) :
    String × Bool :=
  let attempt : Except Unit (String × PyLineno) :=
    match record.source_file with
    | none => Except.error ()
    | some sf =>
      let relpath := rel sf
      match record.source_lineno with
      | none => Except.error ()
      | some slo => Except.ok (relpath, slo)
  let resolved :=
    match attempt with
    | Except.ok p => p
    | Except.error _ => (rel record.pathname, some record.lineno)
  match resolved.2 with
  | some n => if n ≠ 0 then (resolved.1 ++ ":" ++ toString n, true)
              else (resolved.1, true)
  | none => (resolved.1, true)

/-- A message sent to a logger sink by the performance logger (severity name
and rendered text). -/
structure PerfLogCall where
  level : String
  message : String
deriving DecidableEq, Repr

/-- `Perflog.start` from `utils/log.py`: always records `now` as the new
start time for `event_name`; warns if the event was already tracked and logs
at debug otherwise.  The clock value `now` stands for `time.time()`. -/
def Perflog.start (now : Nat) (tracking_events : List (String × Nat))
    (event_name : String) : List (String × Nat) × PerfLogCall :=
  match pyLookup tracking_events event_name with
  | some _ =>
    (setKey tracking_events event_name now,
     { level := "warning",
       message := "\"" ++ event_name ++ "\" event already started, resetting start time" })
  | none =>
    (setKey tracking_events event_name now,
     { level := "debug",
       message := "\"" ++ event_name ++ "\" event tracking started" })

/-- `Perflog.stop` from `utils/log.py`: if `event_name` is tracked, pop its
start time, log the elapsed seconds at info and return them; otherwise log
an error and return `None`.  Result: `(return value, new tracking_events,
message logged)`. -/
def Perflog.stop (now : Nat) (tracking_events : List (String × Nat))
    (event_name : String) : Option Nat × List (String × Nat) × PerfLogCall :=
  match pyLookup tracking_events event_name with
  | some started =>
    (some (now - started), eraseKey tracking_events event_name,
     { level := "info",
       message := "\"" ++ event_name ++ "\" event took " ++
         toString (now - started) ++ " seconds" })
  | none =>
    (none, tracking_events,
     { level := "error",
       message := "\"" ++ event_name ++ "\" not being tracked, call .start first" })

/-- A sink attached to a logger by `create_logger`: the rotating file
handler, the syslog handler, or the stderr stream handler, with the
configuration each one is constructed with. -/
inductive Handler where
  | file (path : String) (fmt : String) (maxBytes : Nat) (backupCount : Nat)
  | syslog (address : String) (port : Nat) (fmt : String)
  | stream (fmt : String) (minLevel : Nat)
deriving DecidableEq, Repr

/-- The state of a `logging.Logger` object: its handlers, its level and the
number of filters installed.  A logger freshly created by
`logging.getLogger` has no handlers and no filters. -/
structure LoggerState where
  handlers : List Handler := []
  level : String := "NOTSET"
  filters : Nat := 0
deriving DecidableEq, Repr

/-- The process-wide `logging.root.manager.loggerDict` registry. -/
abbrev Registry := List (String × LoggerState)

/-- `logging.getLogger(name)`: return the registered logger for `name`,
or create, register and return a fresh one. -/
def getLogger (reg : Registry) (name : String) : LoggerState × Registry :=
  match pyLookup reg name with
  | some lg => (lg, reg)
  | none => ({}, setKey reg name {})

/-- The environment configuration consumed by the logging module: the
`logging:` block of `env.yaml` and the optional `syslog: {address, port}`
block (`_get_syslog_settings` returns `none` on a missing key). -/
structure EnvConf where
  logging : List (String × ConfVal) := []
  syslog : Option (String × Nat) := none

/-- `_load_conf` from `utils/log.py`: copy `_default_conf`, update it with
the env `logging` block, then — if the logger's own name is a key of the
merged dict — update it with the value found there
(`logging_conf.update(logging_conf[logger_name])`, which raises when that
value is not a mapping). -/
def load_conf (envLogging : List (String × ConfVal)) (logger_name : String) :
    Except Unit (List (String × ConfVal)) :=
  let logging_conf := dictUpdate default_conf envLogging
  match pyLookup logging_conf logger_name with
  | some v => dictUpdateWith logging_conf v
  | none => Except.ok logging_conf

/-- Typed read of a string-valued option from a merged config dict. -/
def getStr (d : List (String × ConfVal)) (k : String) : String :=
  match pyLookup d k with
  | some (ConfVal.scalar (ScalarVal.str s)) => s
  | _ => ""

/-- Typed read of an integer-valued option from a merged config dict. -/
def getNat (d : List (String × ConfVal)) (k : String) : Nat :=
  match pyLookup d k with
  | some (ConfVal.scalar (ScalarVal.nat n)) => n
  | _ => 0

/-- Typed read of a boolean-valued option from a merged config dict. -/
def getBool (d : List (String × ConfVal)) (k : String) : Bool :=
  match pyLookup d k with
  | some (ConfVal.scalar (ScalarVal.bool b)) => b
  | _ => false

/-- Python `x or y` for an optionally-passed integer keyword argument `x`:
`None` and `0` are falsy and yield `y`. -/
def pyOr (explicit : Option Nat) (confVal : Nat) : Nat :=
  match explicit with
  | some v => if v = 0 then confVal else v
  | none => confVal

/-- `create_logger` from `utils/log.py`.  In source order: delete any
existing registry entry for `logger_name`; load the merged config (which can
raise, modelled by `Except`); compute the log file path; build the rotating
file handler with `max_file_size or conf['max_file_size']` and
`max_backups or conf['max_file_backups']`; `logging.getLogger` and attach
the file handler; attach a syslog handler when syslog settings are present
(its format embeds the random 8-character session tag, passed here as
`sessionTag`); set the level; attach an ERROR-level stream handler when
`errors_to_console`; install the `_RelpathFilter`.  Result: the created
logger (or the raised error) together with the registry after the call. -/
def create_logger (env : EnvConf) (reg : Registry) (logDir sessionTag : String)
    (logger_name : String) (filename : Option String := none)
    (max_file_size : Option Nat := none) (max_backups : Option Nat := none) :
    Except Unit LoggerState × Registry :=
  let reg := eraseKey reg logger_name
  match load_conf env.logging logger_name with
  | Except.error e => (Except.error e, reg)
  | Except.ok confd =>
    let log_file :=
      match filename with
      | some f => f
      | none => logDir ++ "/" ++ logger_name ++ ".log"
    let file_handler :=
      Handler.file log_file (getStr confd "file_format")
        (pyOr max_file_size (getNat confd "max_file_size"))
        (pyOr max_backups (getNat confd "max_file_backups"))
    let lgreg := getLogger reg logger_name
    let logger := lgreg.1
    let reg := lgreg.2
    let logger := { logger with handlers := logger.handlers ++ [file_handler] }
    let logger :=
      match env.syslog with
      | some addr =>
        { logger with handlers := logger.handlers ++
            [Handler.syslog addr.1 addr.2
              ("%(asctime)s [" ++ sessionTag ++ "] %(message)s")] }
      | none => logger
    let logger := { logger with level := getStr confd "level" }
    let logger :=
      if getBool confd "errors_to_console" then
        { logger with handlers := logger.handlers ++
            [Handler.stream (getStr confd "stream_format") 40] }
      else logger
    let logger := { logger with filters := logger.filters + 1 }
    (Except.ok logger, setKey reg logger_name logger)

/-- Modelled from the spec: the rotating file sink's rollover decision is
made by the standard library's `RotatingFileHandler`, which is not part of
the excerpt.  Per the spec, "rotation disabled when threshold is zero";
otherwise a write that would grow the file past the threshold triggers
rollover. -/
def shouldRollover (maxBytes newSize : Nat) : Bool :=
  decide (0 < maxBytes) && decide (maxBytes < newSize)

/-- The first file handler's `maxBytes`, if any. -/
def firstFileMaxBytes : List Handler → Option Nat
  | [] => none
  | Handler.file _ _ mb _ :: _ => some mb
  | _ :: rest => firstFileMaxBytes rest

/-- The first file handler's `backupCount`, if any. -/
def firstFileBackups : List Handler → Option Nat
  | [] => none
  | Handler.file _ _ _ bc :: _ => some bc
  | _ :: rest => firstFileBackups rest

/-- Whether a handler is the rotating file sink. -/
def Handler.isFile : Handler → Bool
  | Handler.file .. => true
  | _ => false

/-- Whether a handler is the syslog sink. -/
def Handler.isSyslog : Handler → Bool
  | Handler.syslog .. => true
  | _ => false

/-- Whether a handler is the stderr stream sink. -/
def Handler.isStream : Handler → Bool
  | Handler.stream .. => true
  | _ => false

/-- The `extra` dict passed to a logging call, as read by the artifactor
adapter's `process` and later surfaced as record attributes.  `none` models
an absent key. -/
structure Extra where
  source_file : Option String := none
  source_lineno : Option PyLineno := none
deriving DecidableEq, Repr

/-- The keyword arguments of an adapter logging call. -/
structure Kwargs where
  extra : Option Extra := none
  exc_info : Bool := false
deriving DecidableEq, Repr

/-- The normalized record handed to
`artifactor.fire_hook('log_message', log_record=..., slaveid=...)` by
`ArtifactorLoggerAdapter.art_log`.  `extra := none` models the `''` default
of `kwargs.get('extra', '')`. -/
structure ArtLogRecord where
  level : String
  message : String
  extra : Option Extra
deriving DecidableEq, Repr

/-- Python truthiness of `extra.get('source_file')`: an absent key or an
empty string is falsy. -/
def pyTruthyStr : Option String → Bool
  | some s => s ≠ ""
  | none => false

/-- `ArtifactorLoggerAdapter.process` from `utils/log.py`: look 3 frames up
(`frameFilename` / `frameLineno` are that frame's filename and line); if the
call did not already supply a truthy `source_file` in `extra`, record the
relativized frame filename and its line, or `('unknown', 0)` when the frame
has no filename; store the resulting `extra` back into the kwargs.  The
message is returned unchanged. -/
def ArtifactorLoggerAdapter.process (rel : String → String)
    (frameFilename : String) (frameLineno : Int) (msg : String)
    (kwargs : Kwargs) : String × Kwargs :=
  let extra :=
    match kwargs.extra with
    | some e => e
    | none => {}
  let extra :=
    if pyTruthyStr extra.source_file then extra
    else if frameFilename ≠ "" then
      { extra with source_file := some (rel frameFilename),
                   source_lineno := some (some frameLineno) }
    else
      { extra with source_file := some "unknown",
                   source_lineno := some (some 0) }
  (msg, { kwargs with extra := some extra })

/-- `ArtifactorLoggerAdapter.art_log` from `utils/log.py`: build the
normalized `{level, message, extra}` record and fire the `log_message` hook
on the external artifact collector.  The collector is external, so it is
passed in as `fire_hook`; a raising collector is a `fire_hook` returning
`Except.error`. -/
def ArtifactorLoggerAdapter.art_log (fire_hook : ArtLogRecord → Except Unit Unit)
    (level_name message : String) (kwargs : Kwargs) : Except Unit Unit :=
  fire_hook { level := level_name, message := safe_string message,
              extra := kwargs.extra }

/-- A delegated call to the wrapped logger's severity method (step (c) of
the adapter contract): the method invoked and the message/kwargs passed. -/
inductive LocalLogCall where
  | call (level_name : String) (msg : String) (kwargs : Kwargs)
deriving DecidableEq, Repr

/-- The common body of every severity method of `ArtifactorLoggerAdapter`
(`log`, `trace`, `debug`, `info`, `warning`, `error`, `critical`), which all
read, in source order: `msg, kwargs = self.process(msg, kwargs)`, then
`self.art_log(level_name, msg, kwargs)`, then
`return self.logger.<method>(msg, **kwargs)`.  There is no exception
handling: when `art_log` raises, the exception propagates and the delegation
to the wrapped logger never runs — modelled by the `Except.error` result,
which carries no `LocalLogCall`. -/
def ArtifactorLoggerAdapter.severity (fire_hook : ArtLogRecord → Except Unit Unit)
    (rel : String → String) (frameFilename : String) (frameLineno : Int)
    (level_name : String) (msg : String) (kwargs : Kwargs) :
    Except Unit LocalLogCall :=
  let pk := ArtifactorLoggerAdapter.process rel frameFilename frameLineno msg kwargs
  match ArtifactorLoggerAdapter.art_log fire_hook level_name pk.1 pk.2 with
  | Except.error e => Except.error e
  | Except.ok _ => Except.ok (LocalLogCall.call level_name pk.1 pk.2)

/-- `ArtifactorLoggerAdapter.exception` from `utils/log.py`: set
`kwargs['exc_info'] = 1`, then behave exactly like the `error` severity
method (it forwards level name `'error'` and delegates to
`self.logger.error`). -/
def ArtifactorLoggerAdapter.exception (fire_hook : ArtLogRecord → Except Unit Unit)
    (rel : String → String) (frameFilename : String) (frameLineno : Int)
    (msg : String) (kwargs : Kwargs) : Except Unit LocalLogCall :=
  ArtifactorLoggerAdapter.severity fire_hook rel frameFilename frameLineno
    "error" msg { kwargs with exc_info := true }

/-- The record attributes produced when a logging call made with `extra`
reaches `_RelpathFilter.filter`: the `extra` dict's entries become record
attributes, alongside the built-in `pathname`/`lineno`. -/
def recordOfExtra (extra : Extra) (pathname : String) (lineno : Int) : LogRecord :=
  { source_file := extra.source_file, source_lineno := extra.source_lineno,
    pathname := pathname, lineno := lineno }

/-- Spec-side description of the resolved source string, following the
spec's words: `relpath` alone if no line number is available (`None`, and —
per Python truthiness in the code under comparison — `0`), else
`relpath:lineno`. -/
def sourceOf (relpath : String) (lineno : PyLineno) : String :=
  match lineno with
  | some n => if n ≠ 0 then relpath ++ ":" ++ toString n else relpath
  | none => relpath

/-- The handler list a successful `create_logger` run attaches, as a function
of the merged config `confd` and the call's parameters (used to state shape
lemmas about `create_logger`). -/
def builtHandlers (env : EnvConf) (logDir tag name : String)
    (filename : Option String) (mfs mb : Option Nat)
    (confd : List (String × ConfVal)) : List Handler :=
  [Handler.file
      (match filename with
       | some f => f
       | none => logDir ++ "/" ++ name ++ ".log")
      (getStr confd "file_format")
      (pyOr mfs (getNat confd "max_file_size"))
      (pyOr mb (getNat confd "max_file_backups"))] ++
  (match env.syslog with
   | some addr => [Handler.syslog addr.1 addr.2
       ("%(asctime)s [" ++ tag ++ "] %(message)s")]
   | none => []) ++
  (if getBool confd "errors_to_console" then
     [Handler.stream (getStr confd "stream_format") 40]
   else [])

/-- The logger a successful `create_logger` run builds and registers. -/
def builtLogger (env : EnvConf) (logDir tag name : String)
    (filename : Option String) (mfs mb : Option Nat)
    (confd : List (String × ConfVal)) : LoggerState :=
  { handlers := builtHandlers env logDir tag name filename mfs mb confd,
    level := getStr confd "level",
    filters := 1 }

/-- The rotating file sink's `maxBytes` of a `create_logger` result
(`none` when the call raised). -/
def resultFileMaxBytes (r : Except Unit LoggerState) : Option Nat :=
  match r with
  | Except.ok lg => firstFileMaxBytes lg.handlers
  | Except.error _ => none

/-- The rotating file sink's `backupCount` of a `create_logger` result
(`none` when the call raised). -/
def resultFileBackups (r : Except Unit LoggerState) : Option Nat :=
  match r with
  | Except.ok lg => firstFileBackups lg.handlers
  | Except.error _ => none

/-- Test fixture: the logger built by `create_logger` for the name `cfme`
under an empty environment configuration. -/
def cfmeTestLogger : LoggerState :=
  { handlers := [Handler.file "/logs/cfme.log"
      "%(asctime)-15s [%(levelname).1s] %(message)s (%(source)s)" 0 0],
    level := "INFO",
    filters := 1 }

/-- Test fixture: an environment configuration whose `logging` block sets
`max_file_size` to `1024`. -/
def overrideEnv : EnvConf :=
  { logging := [("max_file_size", ConfVal.scalar (ScalarVal.nat 1024))] }

theorem pyLookup_eraseKey_self {α : Type} (d : List (String × α)) (k : String) :
    pyLookup (eraseKey d k) k = none := by
  induction d with
  | nil => rfl
  | cons kv rest ih =>
    by_cases h : kv.1 = k <;> simp [eraseKey, pyLookup, h, ih]

theorem pyLookup_setKey_self {α : Type} (d : List (String × α)) (k : String)
    (v : α) : pyLookup (setKey d k v) k = some v := by
  induction d with
  | nil => simp [setKey, pyLookup]
  | cons kv rest ih =>
    by_cases h : kv.1 = k <;> simp [setKey, pyLookup, h, ih]

theorem pyLookup_setKey_ne {α : Type} (d : List (String × α)) (k' k : String)
    (v : α) (h : k' ≠ k) : pyLookup (setKey d k' v) k = pyLookup d k := by
  induction d with
  | nil => simp [setKey, pyLookup, h]
  | cons kv rest ih =>
    by_cases hk : kv.1 = k' <;> simp [setKey, pyLookup, hk, ih, h]

theorem pyLookup_dictUpdate_none (d e : List (String × ConfVal)) (k : String)
    (h : pyLookup e k = none) : pyLookup (dictUpdate d e) k = pyLookup d k := by
  induction e generalizing d with
  | nil => rfl
  | cons kv rest ih =>
    have hne : kv.1 ≠ k := by
      intro hk
      simp [pyLookup, hk] at h
    have hrest : pyLookup rest k = none := by
      simpa [pyLookup, hne] using h
    show pyLookup (dictUpdate (setKey d kv.1 kv.2) rest) k = pyLookup d k
    rw [ih _ hrest, pyLookup_setKey_ne _ _ _ _ hne]

theorem setKey_setKey {α : Type} (d : List (String × α)) (k : String)
    (v w : α) : setKey (setKey d k v) k w = setKey d k w := by
  induction d with
  | nil => simp [setKey]
  | cons kv rest ih =>
    by_cases h : kv.1 = k <;> simp [setKey, h, ih]

theorem create_logger_ok_eq (env : EnvConf) (reg : Registry)
    (logDir tag name : String) (filename : Option String) (mfs mb : Option Nat)
    (confd : List (String × ConfVal))
    (hc : load_conf env.logging name = Except.ok confd) :
    create_logger env reg logDir tag name filename mfs mb =
      (Except.ok (builtLogger env logDir tag name filename mfs mb confd),
       setKey (eraseKey reg name) name
         (builtLogger env logDir tag name filename mfs mb confd)) := by
  cases hs : env.syslog with
  | none =>
    by_cases hb : getBool confd "errors_to_console" <;>
      simp [create_logger, hc, hs, hb, getLogger, pyLookup_eraseKey_self,
        builtLogger, builtHandlers, setKey_setKey] <;>
      exact ⟨rfl, rfl⟩
  | some addr =>
    by_cases hb : getBool confd "errors_to_console" <;>
      simp [create_logger, hc, hs, hb, getLogger, pyLookup_eraseKey_self,
        builtLogger, builtHandlers, setKey_setKey] <;>
      exact ⟨rfl, rfl⟩

/-- C1: evaluation of the adapter at a failing collector.  When
`fire_hook` raises, every severity method of `ArtifactorLoggerAdapter`
(modelled by `ArtifactorLoggerAdapter.severity` and
`ArtifactorLoggerAdapter.exception`) propagates the exception
(`Except.error`) and never produces the delegated call to the wrapped
logger, because `self.art_log(...)` runs before
`self.logger.<method>(...)` with no exception handling; with a succeeding
collector the delegated call is produced.  Local logging therefore does
NOT survive collector errors. -/
theorem ArtifactorLoggerAdapter.forwarding_failure_blocks_local_log :
    (ArtifactorLoggerAdapter.severity (fun _ => Except.error ()) id "f.py" 10
        "info" "hello" {} = Except.error ()) ∧
    (ArtifactorLoggerAdapter.exception (fun _ => Except.error ()) id "f.py" 10
        "hello" {} = Except.error ()) ∧
    (ArtifactorLoggerAdapter.severity (fun _ => Except.ok ()) id "f.py" 10
        "info" "hello" {} =
      Except.ok (LocalLogCall.call "info" "hello"
        { extra := some { source_file := some "f.py",
                          source_lineno := some (some 10) } })) :=
  ⟨rfl, rfl, rfl⟩

/-- C4 counterexample: a string of length exactly `MARKER_LEN - 2 = 78` is
NOT returned unchanged by `format_marker` — the code pads whenever
`len(mstring) <= MARKER_LEN - 2`, so the threshold for returning the input
unchanged is length 79, not 78. -/
theorem format_marker_changes_length_78_input :
    format_marker (String.mk (List.replicate 78 'a')) '-' ≠
      String.mk (List.replicate 78 'a') := by decide

/-- C4 amended: `format_marker` returns its input unchanged exactly for
strings of length strictly greater than `MARKER_LEN - 2` (i.e. length at
least 79). -/
theorem format_marker_unchanged_above_threshold (s : String) (mark : Char)
    (h : MARKER_LEN - 2 < s.length) : format_marker s mark = s := by
  have hn : ¬ (s.length ≤ MARKER_LEN - 2) := by omega
  simp [format_marker, hn]

/-- Witness for `format_marker_unchanged_above_threshold` at a string of
length 79. -/
theorem format_marker_unchanged_above_threshold_witness :
    MARKER_LEN - 2 < (String.mk (List.replicate 79 'a')).length ∧
    format_marker (String.mk (List.replicate 79 'a')) '-' =
      String.mk (List.replicate 79 'a') :=
  ⟨by decide,
   format_marker_unchanged_above_threshold (String.mk (List.replicate 79 'a'))
     '-' (by decide)⟩

/-- C8: `Perflog.stop` on an event that is not currently tracked returns
`None`, leaves the tracked-event mapping unchanged, and logs an error
(rather than raising). -/
theorem Perflog.stop_untracked (now : Nat) (events : List (String × Nat))
    (name : String) (h : pyLookup events name = none) :
    (Perflog.stop now events name).1 = none ∧
    (Perflog.stop now events name).2.1 = events ∧
    (Perflog.stop now events name).2.2.level = "error" := by
  simp [Perflog.stop, h]

/-- Witness for `Perflog.stop_untracked` at the never-started event of the
spec's example. -/
theorem Perflog.stop_untracked_witness :
    pyLookup ([] : List (String × Nat)) "never-started" = none ∧
    (Perflog.stop 100 [] "never-started").1 = none ∧
    (Perflog.stop 100 [] "never-started").2.1 = [] :=
  ⟨rfl, (Perflog.stop_untracked 100 [] "never-started" rfl).1,
    (Perflog.stop_untracked 100 [] "never-started" rfl).2.1⟩

theorem charRepeat_length (c : Char) (n : Nat) : (charRepeat c n).length = n := by
  simp [charRepeat, String.length_mk]

/-- C7: for every non-empty string strictly shorter than `MARKER_LEN - 2`,
`format_marker` returns a string of exactly `MARKER_LEN` characters: the
input surrounded by a single space on each side, centered between
repetitions of the mark character (the two runs of marks differ in length
by at most one, extra mark on the right). -/
theorem format_marker_short_centered (s : String) (mark : Char)
    (h1 : 0 < s.length) (h2 : s.length < MARKER_LEN - 2) :
    (format_marker s mark).length = MARKER_LEN ∧
    format_marker s mark =
      charRepeat mark ((MARKER_LEN - (s.length + 2)) / 2) ++ (" " ++ s ++ " ") ++
        charRepeat mark
          (MARKER_LEN - (s.length + 2) - (MARKER_LEN - (s.length + 2)) / 2) ∧
    (MARKER_LEN - (s.length + 2)) / 2 ≤
      MARKER_LEN - (s.length + 2) - (MARKER_LEN - (s.length + 2)) / 2 ∧
    MARKER_LEN - (s.length + 2) - (MARKER_LEN - (s.length + 2)) / 2 ≤
      (MARKER_LEN - (s.length + 2)) / 2 + 1 := by
  have hm : s.length ≤ MARKER_LEN - 2 := Nat.le_of_lt h2
  have hone : (" " : String).length = 1 := rfl
  have hlen : (" " ++ s ++ " ").length = s.length + 2 := by
    rw [String.length_append, String.length_append, hone]
    omega
  have hcond : ¬ (MARKER_LEN ≤ (" " ++ s ++ " ").length) := by
    rw [hlen]
    simp [MARKER_LEN] at h2 ⊢
    omega
  have hfm : format_marker s mark =
      charRepeat mark ((MARKER_LEN - (s.length + 2)) / 2) ++ (" " ++ s ++ " ") ++
        charRepeat mark
          (MARKER_LEN - (s.length + 2) - (MARKER_LEN - (s.length + 2)) / 2) := by
    rw [format_marker]
    rw [if_pos hm]
    rw [pyCenter]
    rw [if_neg hcond]
    rw [hlen]
  refine ⟨?_, hfm, by omega, by omega⟩
  rw [hfm, String.length_append, String.length_append, charRepeat_length,
    charRepeat_length, hlen]
  simp [MARKER_LEN] at h2 ⊢
  omega

/-- Witness for `format_marker_short_centered` at the string `"hello"`. -/
theorem format_marker_short_centered_witness :
    0 < ("hello" : String).length ∧
    ("hello" : String).length < MARKER_LEN - 2 ∧
    (format_marker "hello" '-').length = MARKER_LEN :=
  ⟨by decide, by decide,
   (format_marker_short_centered "hello" '-' (by decide) (by decide)).1⟩

/-- C2 counterexample: a record that carries a caller-supplied
`source_file` but NO `source_lineno` attribute is resolved from the
automatically captured `pathname`/`lineno`, not from the supplied
`source_file`: reading `record.source_lineno` raises `AttributeError` and
the `except` branch discards the supplied file.  Here the supplied file is
`/proj/a.py` yet the resolved source is `b.py:42`. -/
theorem RelpathFilter.ignores_supplied_file_without_lineno :
    RelpathFilter.filter (get_rel_path "/proj/")
      { source_file := some "/proj/a.py", source_lineno := none,
        pathname := "/proj/b.py", lineno := 42 } = ("b.py:42", true) ∧
    ("b.py:42" : String) ≠ "a.py" ∧
    ("b.py:42" : String) ≠ "a.py:42" :=
  ⟨by decide, by decide, by decide⟩

/-- C2 amended: the source-attribution filter uses the caller-supplied
provenance only when BOTH `source_file` and `source_lineno` attributes are
present on the record (in which case the source string is computed from the
relativized `source_file` and the supplied line number); if either
attribute is absent — including `source_lineno` absent while `source_file`
is present — it falls back to the captured `pathname` and `lineno`. -/
theorem RelpathFilter.supplied_provenance_requires_both (rel : String → String)
    (r : LogRecord) :
    (∀ sf slo, r.source_file = some sf → r.source_lineno = some slo →
      RelpathFilter.filter rel r = (sourceOf (rel sf) slo, true)) ∧
    (r.source_file = none ∨ r.source_lineno = none →
      RelpathFilter.filter rel r =
        (sourceOf (rel r.pathname) (some r.lineno), true)) := by
  constructor
  · intro sf slo hsf hslo
    cases slo with
    | none => simp [RelpathFilter.filter, sourceOf, hsf, hslo]
    | some n =>
      by_cases hn : n = 0 <;>
        simp [RelpathFilter.filter, sourceOf, hsf, hslo, hn]
  · intro h
    cases hsf : r.source_file with
    | none =>
      by_cases hn : r.lineno = 0 <;>
        simp [RelpathFilter.filter, sourceOf, hsf, hn]
    | some sf =>
      have hsl : r.source_lineno = none := by
        rcases h with h | h
        · rw [hsf] at h
          exact absurd h (by simp)
        · exact h
      by_cases hn : r.lineno = 0 <;>
        simp [RelpathFilter.filter, sourceOf, hsf, hsl, hn]

/-- Witness for `RelpathFilter.supplied_provenance_requires_both`: both
branches applied at concrete records. -/
theorem RelpathFilter.supplied_provenance_requires_both_witness :
    RelpathFilter.filter id
      { source_file := some "a.py", source_lineno := some (some 3),
        pathname := "b.py", lineno := 9 } = (sourceOf (id "a.py") (some 3), true) ∧
    RelpathFilter.filter id
      { source_file := some "a.py", source_lineno := none,
        pathname := "b.py", lineno := 9 } = (sourceOf (id "b.py") (some 9), true) :=
  ⟨(RelpathFilter.supplied_provenance_requires_both id
      { source_file := some "a.py", source_lineno := some (some 3),
        pathname := "b.py", lineno := 9 }).1 "a.py" (some 3) rfl rfl,
   (RelpathFilter.supplied_provenance_requires_both id
      { source_file := some "a.py", source_lineno := none,
        pathname := "b.py", lineno := 9 }).2 (Or.inr rfl)⟩

/-- C6: for every record passing through the source-attribution filter with
caller-supplied provenance, the resolved source string is
`relpath:lineno` when a (nonzero) line number is supplied and the
relativized path alone — no `:lineno` suffix — when the supplied line
number is explicitly `None`; the filter always lets the record through. -/
theorem RelpathFilter.source_shape (rel : String → String) (r : LogRecord)
    (sf : String) (hsf : r.source_file = some sf) :
    (∀ n : Int, r.source_lineno = some (some n) → n ≠ 0 →
      RelpathFilter.filter rel r = (rel sf ++ ":" ++ toString n, true)) ∧
    (r.source_lineno = some none →
      RelpathFilter.filter rel r = (rel sf, true)) ∧
    (RelpathFilter.filter rel r).2 = true := by
  refine ⟨?_, ?_, ?_⟩
  · intro n hn hne
    simp [RelpathFilter.filter, hsf, hn, hne]
  · intro hn
    simp [RelpathFilter.filter, hsf, hn]
  · rcases r with ⟨rsf, rsl, rp, rl⟩
    rcases rsf with _ | sf' <;> rcases rsl with _ | slo <;>
      simp [RelpathFilter.filter] <;>
      first
        | (rcases slo with _ | n <;> simp <;> split <;> simp)
        | (split <;> simp)

/-- Witness for `RelpathFilter.source_shape`: a supplied nonzero line number
and a supplied explicit `None`. -/
theorem RelpathFilter.source_shape_witness :
    RelpathFilter.filter (get_rel_path "/proj/")
      { source_file := some "/proj/a.py", source_lineno := some (some 7),
        pathname := "/proj/b.py", lineno := 42 } =
      (get_rel_path "/proj/" "/proj/a.py" ++ ":" ++ toString (7 : Int), true) ∧
    RelpathFilter.filter (get_rel_path "/proj/")
      { source_file := some "/proj/a.py", source_lineno := some none,
        pathname := "/proj/b.py", lineno := 42 } =
      (get_rel_path "/proj/" "/proj/a.py", true) :=
  ⟨(RelpathFilter.source_shape (get_rel_path "/proj/")
      { source_file := some "/proj/a.py", source_lineno := some (some 7),
        pathname := "/proj/b.py", lineno := 42 } "/proj/a.py" rfl).1 7 rfl
      (by decide),
   (RelpathFilter.source_shape (get_rel_path "/proj/")
      { source_file := some "/proj/a.py", source_lineno := some none,
        pathname := "/proj/b.py", lineno := 42 } "/proj/a.py" rfl).2.1 rfl⟩

/-- C10: a record whose effective line number is `0` — not only `None` —
also gets no `:lineno` suffix (Python truthiness of `0`); in particular the
artifactor adapter's fallback for a calling frame with no filename stores
`source_file = 'unknown'`, `source_lineno = 0`, and such a record resolves
to the source string `"unknown"` with no line number. -/
theorem RelpathFilter.zero_lineno_no_suffix (rel : String → String)
    (r : LogRecord) (sf : String) (hsf : r.source_file = some sf)
    (h0 : r.source_lineno = some (some 0)) :
    RelpathFilter.filter rel r = (rel sf, true) ∧
    (ArtifactorLoggerAdapter.process rel "" 7 "m" {}).2.extra =
      some { source_file := some "unknown", source_lineno := some (some 0) } ∧
    RelpathFilter.filter (get_rel_path "/home/user/cfme_tests/")
      (recordOfExtra { source_file := some "unknown",
                       source_lineno := some (some 0) } "/x.py" 9) =
      ("unknown", true) := by
  refine ⟨?_, rfl, by decide⟩
  simp [RelpathFilter.filter, hsf, h0]

/-- Witness for `RelpathFilter.zero_lineno_no_suffix` at a concrete record
with a supplied zero line number. -/
theorem RelpathFilter.zero_lineno_no_suffix_witness :
    RelpathFilter.filter id
      { source_file := some "a.py", source_lineno := some (some 0),
        pathname := "b.py", lineno := 9 } = (id "a.py", true) :=
  (RelpathFilter.zero_lineno_no_suffix id
    { source_file := some "a.py", source_lineno := some (some 0),
      pathname := "b.py", lineno := 9 } "a.py" rfl rfl).1

theorem builtHandlers_counts (env : EnvConf) (logDir tag name : String)
    (filename : Option String) (mfs mb : Option Nat)
    (confd : List (String × ConfVal)) :
    (builtHandlers env logDir tag name filename mfs mb confd).countP
        Handler.isFile = 1 ∧
    (builtHandlers env logDir tag name filename mfs mb confd).countP
        Handler.isSyslog ≤ 1 ∧
    (builtHandlers env logDir tag name filename mfs mb confd).countP
        Handler.isStream ≤ 1 ∧
    (builtHandlers env logDir tag name filename mfs mb confd).length ≤ 3 := by
  cases hs : env.syslog <;>
    by_cases hb : getBool confd "errors_to_console" <;>
      simp [builtHandlers, hs, hb, List.countP_cons, List.countP_nil,
        Handler.isFile, Handler.isSyslog, Handler.isStream]

/-- C3: calling `create_logger` twice with the same name yields a logger
with exactly one rotating-file handler, at most one syslog handler, at most
one stream handler, and at most three handlers in total — the prior
registry entry is deleted before the fresh logger is built, so re-creation
never accumulates duplicate handlers; the registry afterwards maps the name
to exactly this fresh logger. -/
theorem create_logger_recreate_single_sink_set (env : EnvConf) (reg : Registry)
    (logDir tag1 tag2 name : String) (filename : Option String)
    (mfs mb : Option Nat) (lg2 : LoggerState)
    (h2 : (create_logger env
        (create_logger env reg logDir tag1 name filename mfs mb).2
        logDir tag2 name filename mfs mb).1 = Except.ok lg2) :
    lg2.handlers.countP Handler.isFile = 1 ∧
    lg2.handlers.countP Handler.isSyslog ≤ 1 ∧
    lg2.handlers.countP Handler.isStream ≤ 1 ∧
    lg2.handlers.length ≤ 3 ∧
    pyLookup (create_logger env
        (create_logger env reg logDir tag1 name filename mfs mb).2
        logDir tag2 name filename mfs mb).2 name = some lg2 := by
  cases hc : load_conf env.logging name with
  | error e =>
    have herr : (create_logger env
        (create_logger env reg logDir tag1 name filename mfs mb).2
        logDir tag2 name filename mfs mb).1 = Except.error e := by
      simp [create_logger, hc]
    rw [herr] at h2
    simp at h2
  | ok confd =>
    rw [create_logger_ok_eq env _ logDir tag2 name filename mfs mb confd hc] at h2
    simp at h2
    rw [create_logger_ok_eq env _ logDir tag2 name filename mfs mb confd hc]
    subst h2
    have hcnt := builtHandlers_counts env logDir tag2 name filename mfs mb confd
    exact ⟨hcnt.1, hcnt.2.1, hcnt.2.2.1, hcnt.2.2.2,
      by simp [pyLookup_setKey_self, builtLogger]⟩

/-- Witness for `create_logger_recreate_single_sink_set`: `cfme` created
twice under an empty environment. -/
theorem create_logger_recreate_single_sink_set_witness :
    (create_logger {} (create_logger {} [] "/logs" "t" "cfme" none none none).2
        "/logs" "t" "cfme" none none none).1 = Except.ok cfmeTestLogger ∧
    cfmeTestLogger.handlers.countP Handler.isFile = 1 ∧
    cfmeTestLogger.handlers.length ≤ 3 :=
  ⟨rfl,
   (create_logger_recreate_single_sink_set {} [] "/logs" "t" "t" "cfme"
      none none none cfmeTestLogger rfl).1,
   (create_logger_recreate_single_sink_set {} [] "/logs" "t" "t" "cfme"
      none none none cfmeTestLogger rfl).2.2.2.1⟩

/-- C5 counterexample: with the merged configuration's `max_file_size`
equal to `1024`, calling `create_logger` with the explicit override
`max_file_size=0` builds the rotating file sink with threshold `1024` — the
explicitly passed `0` is NOT used, because `max_file_size or
conf['max_file_size']` treats `0` as falsy. -/
theorem create_logger_zero_override_falls_back :
    resultFileMaxBytes
      (create_logger overrideEnv [] "/logs" "t" "cfme" none (some 0) none).1 =
      some 1024 ∧
    some (1024 : Nat) ≠ some (0 : Nat) :=
  ⟨by decide, by decide⟩

/-- C5 amended: the rotating file sink's threshold and backup count are
taken from the merged configuration unless the caller passes a TRUTHY
(nonzero) override; an explicit `0` override — like no override at all —
falls back to the configured value, and rotation is disabled when the
effective threshold is zero. -/
theorem create_logger_rotation_config (env : EnvConf) (reg : Registry)
    (logDir tag name : String) (filename : Option String)
    (confd : List (String × ConfVal))
    (hc : load_conf env.logging name = Except.ok confd) :
    (∀ v : Nat, v ≠ 0 → ∀ mb,
      resultFileMaxBytes
        (create_logger env reg logDir tag name filename (some v) mb).1 = some v) ∧
    (∀ mb, resultFileMaxBytes
        (create_logger env reg logDir tag name filename none mb).1 =
      some (getNat confd "max_file_size")) ∧
    (∀ mb, resultFileMaxBytes
        (create_logger env reg logDir tag name filename (some 0) mb).1 =
      some (getNat confd "max_file_size")) ∧
    (∀ w : Nat, w ≠ 0 →
      resultFileBackups
        (create_logger env reg logDir tag name filename none (some w)).1 = some w) ∧
    (resultFileBackups
        (create_logger env reg logDir tag name filename none (some 0)).1 =
      some (getNat confd "max_file_backups")) ∧
    (resultFileBackups
        (create_logger env reg logDir tag name filename none none).1 =
      some (getNat confd "max_file_backups")) ∧
    (∀ size : Nat, shouldRollover 0 size = false) := by
  refine ⟨?_, ?_, ?_, ?_, ?_, ?_, ?_⟩
  · intro v hv mb
    rw [create_logger_ok_eq env reg logDir tag name filename (some v) mb confd hc]
    simp [resultFileMaxBytes, builtLogger, builtHandlers, firstFileMaxBytes,
      pyOr, hv]
  · intro mb
    rw [create_logger_ok_eq env reg logDir tag name filename none mb confd hc]
    simp [resultFileMaxBytes, builtLogger, builtHandlers, firstFileMaxBytes, pyOr]
  · intro mb
    rw [create_logger_ok_eq env reg logDir tag name filename (some 0) mb confd hc]
    simp [resultFileMaxBytes, builtLogger, builtHandlers, firstFileMaxBytes, pyOr]
  · intro w hw
    rw [create_logger_ok_eq env reg logDir tag name filename none (some w) confd hc]
    simp [resultFileBackups, builtLogger, builtHandlers, firstFileBackups,
      pyOr, hw]
  · rw [create_logger_ok_eq env reg logDir tag name filename none (some 0) confd hc]
    simp [resultFileBackups, builtLogger, builtHandlers, firstFileBackups, pyOr]
  · rw [create_logger_ok_eq env reg logDir tag name filename none none confd hc]
    simp [resultFileBackups, builtLogger, builtHandlers, firstFileBackups, pyOr]
  · intro size
    simp [shouldRollover]

/-- Witness for `create_logger_rotation_config`: a truthy override is used,
and rotation at threshold `0` never triggers. -/
theorem create_logger_rotation_config_witness :
    load_conf (EnvConf.logging {}) "cfme" = Except.ok default_conf ∧
    resultFileMaxBytes
      (create_logger {} [] "/logs" "t" "cfme" none (some 5) none).1 = some 5 ∧
    shouldRollover 0 999999 = false :=
  ⟨rfl,
   (create_logger_rotation_config {} [] "/logs" "t" "cfme" none default_conf
      rfl).1 5 (by decide) none,
   (create_logger_rotation_config {} [] "/logs" "t" "cfme" none default_conf
      rfl).2.2.2.2.2.2 999999⟩

/-- C9: calling `create_logger` with a name equal to a reserved
configuration key (any built-in option name of `_default_conf`, assuming
the environment config does not shadow it) raises inside `_load_conf` —
`logging_conf.update(<scalar>)` fails — before `logging.getLogger` is ever
called, so no logger is registered under that name and no sink (handler)
has been attached. -/
theorem create_logger_reserved_name_rejected (env : EnvConf) (reg : Registry)
    (logDir tag name : String) (filename : Option String) (mfs mb : Option Nat)
    (hname : name ∈ reservedConfKeys)
    (henv : pyLookup env.logging name = none) :
    (create_logger env reg logDir tag name filename mfs mb).1 =
      Except.error () ∧
    pyLookup (create_logger env reg logDir tag name filename mfs mb).2 name =
      none := by
  have hload : load_conf env.logging name = Except.error () := by
    fin_cases hname <;>
      simp only [load_conf] <;>
      rw [pyLookup_dictUpdate_none default_conf env.logging _ henv] <;>
      rfl
  refine ⟨?_, ?_⟩ <;> simp [create_logger, hload, pyLookup_eraseKey_self]

/-- Witness for `create_logger_reserved_name_rejected` at the docstring's
own example `create_logger('level')`. -/
theorem create_logger_reserved_name_rejected_witness :
    "level" ∈ reservedConfKeys ∧
    (create_logger {} [] "/logs" "t" "level" none none none).1 =
      Except.error () ∧
    pyLookup (create_logger {} [] "/logs" "t" "level" none none none).2
      "level" = none :=
  ⟨by decide,
   (create_logger_reserved_name_rejected {} [] "/logs" "t" "level"
      none none none (by decide) rfl).1,
   (create_logger_reserved_name_rejected {} [] "/logs" "t" "level"
      none none none (by decide) rfl).2⟩
